import Mathlib

set_option maxRecDepth 4000

namespace XrplGame

/-- The transaction view the host hands to the hook for one invocation.
Fields mirror the two host accessors the hook calls in
src/hook/src/lib.rs: `is_xrp_payment()` and `amount()` (a u64 value,
represented as a `Nat`; where the 64-bit bound matters a theorem carries
the hypothesis `amount < 2^64`). -/
structure HookCtx where
  is_xrp_payment : Bool
  amount : Nat
deriving DecidableEq, Repr

/-- Observable host interactions of one hook invocation, in program order:
reading the transferred amount, issuing a burn instruction, and the
terminal ACCEPT call with its reason string and auxiliary code. -/
inductive HostEvent where
  | amountRead : HostEvent
  | burnCall : Nat → HostEvent
  | acceptCall : String → Int → HostEvent
deriving DecidableEq, Repr

/-- How one invocation of the hook terminates: a bare `return c` from the
function body, the terminal `ACCEPT(reason, code)` call, or the terminal
`ROLLBACK(reason, code)` call of the host API (which the source never
uses; the constructor exists so that its absence is provable). -/
inductive Outcome where
  | ret : Int → Outcome
  | accepted : String → Int → Outcome
  | rolledBack : String → Int → Outcome
deriving DecidableEq, Repr

/-- The disposition the host observes, as the spec describes it:
`Accept(reasonText, additionalCode)` is the only constructor because this
policy never rejects or rolls back. -/
inductive Disposition where
  | accept : String → Int → Disposition
deriving DecidableEq, Repr

/-- Modelled from the spec: how the host renders a hook outcome as a
disposition. The spec's evaluator contract (its qualification-guard and
zero-burn steps) renders a bare `return 0` from the hook as the no-op
disposition `Accept("", 0)`; a terminal ACCEPT call carries its own reason
and code; a rollback would not be an accept disposition at all. The
host-side code that performs this rendering is not part of this
repository's sources. -/
def Outcome.toDisposition : Outcome → Option Disposition
  | .ret c => some (.accept "" c)
  | .accepted r c => some (.accept r c)
  | .rolledBack _ _ => none

/-- The burn computation of src/hook/src/lib.rs line 13:
`let burn = amt / 100;` — integer (floor) division by 100. -/
def burnAmount (amt : Nat) : Nat := amt / 100

/-- Modelled from the spec: the host accessor `is_xrp_payment()` is a
read-only predicate on the transaction view; it leaves the view
unchanged. -/
def hostIsXrpPayment (tx : HookCtx) : HookCtx × Bool := (tx, tx.is_xrp_payment)

/-- Modelled from the spec: the host accessor `amount()` reads the
transferred value in the smallest currency unit; it leaves the view
unchanged. -/
def hostAmount (tx : HookCtx) : HookCtx × Nat := (tx, tx.amount)

/-- Modelled from the spec: the host instruction `burn(n)` requests the
host destroy `n` units before settlement; all ledger-state change is the
host's, so the transaction view itself is left unchanged. -/
def hostBurn (tx : HookCtx) (n : Nat) : HookCtx × Unit := (tx, ())

/-- Shallow embedding of `burn_one_percent` from src/hook/src/lib.rs.
It returns the (possibly updated) transaction view, the ordered list of
host events of the invocation, and the outcome. Line by line:
line 9 guard `if !tx.is_xrp_payment() { return 0; }`;
line 12 `let amt = tx.amount();`;
line 13 `let burn = amt / 100;`;
line 14 `if burn == 0 { return 0; }`;
line 16 `tx.burn(burn);`;
line 17 `ACCEPT("1% Spark burned", 0);`. -/
def burn_one_percent (tx0 : HookCtx) : HookCtx × List HostEvent × Outcome :=
  let q := hostIsXrpPayment tx0
  if q.2 = false then
    (q.1, [], .ret 0)
  else
    let a := hostAmount q.1
    let amt := a.2
    let burn := burnAmount amt
    if burn = 0 then
      (a.1, [.amountRead], .ret 0)
    else
      let b := hostBurn a.1 burn
      (b.1, [.amountRead, .burnCall burn, .acceptCall "1% Spark burned" 0],
        .accepted "1% Spark burned" 0)

/-- The ordered host-event trace of one invocation. -/
def trace (tx : HookCtx) : List HostEvent := (burn_one_percent tx).2.1

/-- The outcome of one invocation. -/
def outcome (tx : HookCtx) : Outcome := (burn_one_percent tx).2.2

/-- The burn instructions issued during an invocation, in order, each with
the number of units it requests. -/
def burnEvents (es : List HostEvent) : List Nat :=
  es.filterMap fun e =>
    match e with
    | .burnCall n => some n
    | _ => none

example : burn_one_percent ⟨true, 250⟩ =
    (⟨true, 250⟩, [.amountRead, .burnCall 2, .acceptCall "1% Spark burned" 0],
      .accepted "1% Spark burned" 0) := by decide

example : burn_one_percent ⟨true, 99⟩ = (⟨true, 99⟩, [.amountRead], .ret 0) := by decide

example : burn_one_percent ⟨false, 250⟩ = (⟨false, 250⟩, [], .ret 0) := by decide

/-- Claim C1: for every qualifying payment whose transferred amount is at
least 100, the hook issues exactly one burn instruction, for exactly
`amount / 100` units, and terminates with the accept disposition
`Accept("1% Spark burned", 0)`. -/
theorem qualifying_large_payment_burns (tx : HookCtx)
    (hq : tx.is_xrp_payment = true) (ha : 100 ≤ tx.amount) :
    burnEvents (trace tx) = [tx.amount / 100] ∧
    outcome tx = .accepted "1% Spark burned" 0 ∧
    (outcome tx).toDisposition = some (.accept "1% Spark burned" 0) := by
  have hpos : 0 < tx.amount / 100 := Nat.div_pos ha (by norm_num)
  have hne : tx.amount / 100 ≠ 0 := Nat.pos_iff_ne_zero.mp hpos
  simp [trace, outcome, burn_one_percent, hostIsXrpPayment, hostAmount, hostBurn,
    hq, hne, burnEvents, burnAmount, Outcome.toDisposition]

/-- Witness for claim C1 at the concrete qualifying payment of 250 units. -/
theorem qualifying_large_payment_burns_witness :
    burnEvents (trace ⟨true, 250⟩) = [2] ∧
    outcome ⟨true, 250⟩ = .accepted "1% Spark burned" 0 ∧
    (outcome ⟨true, 250⟩).toDisposition = some (.accept "1% Spark burned" 0) := by
  have h := qualifying_large_payment_burns ⟨true, 250⟩ rfl (by norm_num)
  exact ⟨h.1.trans (by norm_num), h.2.1, h.2.2⟩

/-- Claim C2: for every qualifying payment whose transferred amount is
strictly less than 100, the computed burn is 0, no burn instruction is
issued, and the disposition is `Accept("", 0)`. -/
theorem qualifying_small_payment_noop (tx : HookCtx)
    (hq : tx.is_xrp_payment = true) (ha : tx.amount < 100) :
    burnAmount tx.amount = 0 ∧
    burnEvents (trace tx) = [] ∧
    (outcome tx).toDisposition = some (.accept "" 0) := by
  have hz : burnAmount tx.amount = 0 := by
    simpa [burnAmount] using Nat.div_eq_of_lt ha
  refine ⟨hz, ?_, ?_⟩ <;>
    simp [trace, outcome, burn_one_percent, hostIsXrpPayment, hostAmount, hostBurn,
      hq, hz, burnEvents, Outcome.toDisposition]

/-- Witness for claim C2 at the concrete qualifying payment of 99 units. -/
theorem qualifying_small_payment_noop_witness :
    burnAmount 99 = 0 ∧
    burnEvents (trace ⟨true, 99⟩) = [] ∧
    (outcome ⟨true, 99⟩).toDisposition = some (.accept "" 0) :=
  qualifying_small_payment_noop ⟨true, 99⟩ rfl (by norm_num)

/-- Claim C3: for every non-qualifying transaction the hook terminates
immediately with disposition `Accept("", 0)`: the host-event trace is
empty, so the transferred amount is never read and no burn instruction is
issued. -/
theorem non_qualifying_noop (tx : HookCtx)
    (hq : tx.is_xrp_payment = false) :
    trace tx = [] ∧
    HostEvent.amountRead ∉ trace tx ∧
    burnEvents (trace tx) = [] ∧
    (outcome tx).toDisposition = some (.accept "" 0) := by
  refine ⟨?_, ?_, ?_, ?_⟩ <;>
    simp [trace, outcome, burn_one_percent, hostIsXrpPayment, hostAmount, hostBurn,
      hq, burnEvents, Outcome.toDisposition]

/-- Witness for claim C3 at a concrete non-qualifying transaction. -/
theorem non_qualifying_noop_witness :
    trace ⟨false, 12345⟩ = [] ∧
    HostEvent.amountRead ∉ trace ⟨false, 12345⟩ ∧
    burnEvents (trace ⟨false, 12345⟩) = [] ∧
    (outcome ⟨false, 12345⟩).toDisposition = some (.accept "" 0) :=
  non_qualifying_noop ⟨false, 12345⟩ rfl

/-- Claim C4: every invocation path terminates in an accept disposition:
the outcome is either the bare `return 0` (rendered `Accept("", 0)`) or
the terminal ACCEPT call, never a rollback, and its disposition is always
some accept. -/
theorem every_path_accepts (tx : HookCtx) :
    (outcome tx = .ret 0 ∨ outcome tx = .accepted "1% Spark burned" 0) ∧
    (∀ r c, outcome tx ≠ .rolledBack r c) ∧
    ∃ r c, (outcome tx).toDisposition = some (.accept r c) := by
  by_cases hq : tx.is_xrp_payment = false
  · simp [outcome, burn_one_percent, hostIsXrpPayment, hostAmount, hostBurn, hq,
      Outcome.toDisposition]
  · by_cases hz : burnAmount tx.amount = 0 <;>
      simp [outcome, burn_one_percent, hostIsXrpPayment, hostAmount, hostBurn, hq, hz,
        Outcome.toDisposition]

/-- Witness for claim C4 at the concrete qualifying payment of 250 units. -/
theorem every_path_accepts_witness :
    (outcome ⟨true, 250⟩ = .ret 0 ∨ outcome ⟨true, 250⟩ = .accepted "1% Spark burned" 0) ∧
    (∀ r c, outcome ⟨true, 250⟩ ≠ .rolledBack r c) ∧
    ∃ r c, (outcome ⟨true, 250⟩).toDisposition = some (.accept r c) :=
  every_path_accepts ⟨true, 250⟩

/-- Claim C5: the burn amount is exact integer floor division of the
transferred amount by 100 (characterised by `burn * 100 ≤ amt < (burn+1) * 100`),
it cannot overflow a u64 (any `amt < 2^64` gives `burn < 2^64`), and the
boundary values 0, 99, 100, 250 and `u64::MAX` give 0, 0, 1, 2 and
`u64::MAX / 100` respectively. -/
theorem burn_is_floor_division (amt : Nat) (h : amt < 2 ^ 64) :
    burnAmount amt = amt / 100 ∧
    burnAmount amt < 2 ^ 64 ∧
    burnAmount amt * 100 ≤ amt ∧
    amt < (burnAmount amt + 1) * 100 ∧
    burnAmount 0 = 0 ∧
    burnAmount 99 = 0 ∧
    burnAmount 100 = 1 ∧
    burnAmount 250 = 2 ∧
    burnAmount (2 ^ 64 - 1) = 184467440737095516 := by
  have hdm := Nat.div_add_mod amt 100
  have hmod : amt % 100 < 100 := Nat.mod_lt amt (by norm_num)
  refine ⟨rfl, lt_of_le_of_lt (Nat.div_le_self amt 100) h, ?_, ?_, by decide, by decide,
    by decide, by decide, by decide⟩
  · simp only [burnAmount]
    omega
  · simp only [burnAmount]
    omega

/-- Witness for claim C5 at the concrete amount 250. -/
theorem burn_is_floor_division_witness :
    burnAmount 250 = 250 / 100 ∧
    burnAmount 250 < 2 ^ 64 ∧
    burnAmount 250 * 100 ≤ 250 ∧
    250 < (burnAmount 250 + 1) * 100 ∧
    burnAmount 0 = 0 ∧
    burnAmount 99 = 0 ∧
    burnAmount 100 = 1 ∧
    burnAmount 250 = 2 ∧
    burnAmount (2 ^ 64 - 1) = 184467440737095516 :=
  burn_is_floor_division 250 (by norm_num)

/-- Claim C6: for every transferred amount, the computed burn amount never
exceeds the transferred amount. -/
theorem burn_le_amount (amt : Nat) : burnAmount amt ≤ amt :=
  Nat.div_le_self amt 100

/-- Witness for claim C6 at the concrete amount 250. -/
theorem burn_le_amount_witness : burnAmount 250 ≤ 250 :=
  burn_le_amount 250

/-- Claim C7: evaluation is deterministic: two transaction views that agree
on the qualification flag and the transferred amount produce the identical
updated view, the identical host-event trace (hence identical burn
instruction, if any) and the identical outcome. -/
theorem evaluation_deterministic (tx tx' : HookCtx)
    (h1 : tx.is_xrp_payment = tx'.is_xrp_payment)
    (h2 : tx.amount = tx'.amount) :
    burn_one_percent tx = burn_one_percent tx' := by
  have : tx = tx' := by
    cases tx
    cases tx'
    simp_all
  rw [this]

/-- Witness for claim C7 at two copies of the qualifying payment of 250
units. -/
theorem evaluation_deterministic_witness :
    burn_one_percent ⟨true, 250⟩ = burn_one_percent ⟨true, 250⟩ :=
  evaluation_deterministic ⟨true, 250⟩ ⟨true, 250⟩ rfl rfl

/-- Claim C8: the evaluator never mutates the transaction view: on every
path the view it hands back is the one it received, with the qualification
flag and transferred amount unchanged. -/
theorem view_never_mutated (tx : HookCtx) :
    (burn_one_percent tx).1 = tx ∧
    (burn_one_percent tx).1.is_xrp_payment = tx.is_xrp_payment ∧
    (burn_one_percent tx).1.amount = tx.amount := by
  by_cases hq : tx.is_xrp_payment = false
  · simp [burn_one_percent, hostIsXrpPayment, hostAmount, hostBurn, hq]
  · by_cases hz : burnAmount tx.amount = 0 <;>
      simp [burn_one_percent, hostIsXrpPayment, hostAmount, hostBurn, hq, hz]

/-- Witness for claim C8 at the concrete qualifying payment of 250 units. -/
theorem view_never_mutated_witness :
    (burn_one_percent ⟨true, 250⟩).1 = ⟨true, 250⟩ ∧
    (burn_one_percent ⟨true, 250⟩).1.is_xrp_payment = true ∧
    (burn_one_percent ⟨true, 250⟩).1.amount = 250 :=
  view_never_mutated ⟨true, 250⟩

/-- Claim C9: in every invocation's host-event trace, a terminal ACCEPT
call never precedes a burn instruction: whenever position `i` of the trace
holds an ACCEPT call and position `j` holds a burn instruction, `j < i`. -/
theorem burn_precedes_accept (tx : HookCtx) (i j : Nat) (r : String) (c : Int) (b : Nat)
    (hi : (trace tx).get? i = some (.acceptCall r c))
    (hj : (trace tx).get? j = some (.burnCall b)) :
    j < i := by
  by_cases hq : tx.is_xrp_payment = false
  · simp [trace, burn_one_percent, hostIsXrpPayment, hostAmount, hostBurn, hq] at hi
  · by_cases hz : burnAmount tx.amount = 0
    · simp only [trace, burn_one_percent, hostIsXrpPayment, hostAmount, hostBurn, hq, hz,
        if_true, if_false, Bool.not_eq_false] at hi
      match i, hi with
      | 0, hi => simp at hi
      | Nat.succ i, hi => simp at hi
    · simp only [trace, burn_one_percent, hostIsXrpPayment, hostAmount, hostBurn, hq, hz,
        if_true, if_false, Bool.not_eq_false] at hi hj
      have hi2 : i = 2 := by
        match i, hi with
        | 0, hi => simp at hi
        | 1, hi => simp at hi
        | 2, hi => rfl
        | Nat.succ (Nat.succ (Nat.succ i)), hi => simp at hi
      have hj1 : j = 1 := by
        match j, hj with
        | 0, hj => simp at hj
        | 1, hj => rfl
        | 2, hj => simp at hj
        | Nat.succ (Nat.succ (Nat.succ j)), hj => simp at hj
      omega

/-- Witness for claim C9 at the concrete qualifying payment of 250 units,
whose trace holds the burn instruction at position 1 and the ACCEPT call
at position 2. -/
theorem burn_precedes_accept_witness : (1 : Nat) < 2 :=
  burn_precedes_accept ⟨true, 250⟩ 2 1 "1% Spark burned" 0 2 (by decide) (by decide)

/-- Claim C10: the reason string reaches the host exactly when a burn
instruction was issued: an ACCEPT call appears in the trace iff a burn
instruction does; and on both no-op paths (non-qualifying, or zero burn)
the function terminates by the bare `return 0` with no ACCEPT call in the
trace. -/
theorem reason_iff_burn (tx : HookCtx) :
    (HostEvent.acceptCall "1% Spark burned" 0 ∈ trace tx ↔
      ∃ b, HostEvent.burnCall b ∈ trace tx) ∧
    (tx.is_xrp_payment = false ∨ burnAmount tx.amount = 0 →
      outcome tx = .ret 0 ∧ ∀ r c, HostEvent.acceptCall r c ∉ trace tx) := by
  by_cases hq : tx.is_xrp_payment = false
  · simp [trace, outcome, burn_one_percent, hostIsXrpPayment, hostAmount, hostBurn, hq]
  · by_cases hz : burnAmount tx.amount = 0 <;>
      simp [trace, outcome, burn_one_percent, hostIsXrpPayment, hostAmount, hostBurn,
        hq, hz]

/-- Witness for claim C10 at the concrete qualifying payment of 50 units,
a zero-burn no-op path. -/
theorem reason_iff_burn_witness :
    outcome ⟨true, 50⟩ = .ret 0 ∧
    ∀ r c, HostEvent.acceptCall r c ∉ trace ⟨true, 50⟩ :=
  (reason_iff_burn ⟨true, 50⟩).2 (Or.inr (by decide))

end XrplGame
